import Mathlib

/-!
# Verification of the case-dispatch plugin registry (`src/index.ts`)

Shallow embedding of the TypeScript source. The registry core is the class
`PluginController`: a JavaScript `Map` from a plugin's `targetTypes` key to
the plugin, with `use` / `installPlugins` / `run` / `unuse` / `clearPlugins`
operations. Tags are strings; a key is either a single tag (a JS string,
compared by value) or an array of tags (a JS array object, compared by
reference identity — we model the object identity as a `Nat` id carried
alongside the element list; two distinct array objects receive distinct ids
even when their elements coincide).

Side effects are reified: a plugin's `action` is `(params) => confirm(msg)`
in the source, so we record the confirm message; `run` returns, next to the
(unchanged) registry, a `RunResult` describing what happened — which
plugin's action ran with which params, a silent no-op, or a thrown error.
The source's `casePluginBOrC.condition` calls `.filter` on its argument,
which throws a `TypeError` when the argument is a string rather than an
array; conditions therefore return `Option Bool`, `none` marking that
runtime `TypeError`.
-/

/-- A dispatch key / dispatch input (`CaseType | CaseType[]` in the source):
either a single string tag, or an array object of tags. The `id` of an
`arr` models the JS array's reference identity, which is what a JS `Map`
compares composite keys by. -/
inductive Types where
  | single (tag : String)
  | arr (id : Nat) (elems : List String)
  deriving DecidableEq, Repr

/-- The `params?: unknown` argument of `run`, threaded to the action. -/
abbrev Params := Option String

/-- The errors the source can throw: `"param type is not valid"` (from the
if-else / switch examples), `"types not exist in plugin map"` (from
`PluginController.run`), and a JS `TypeError` (from calling `.filter` on a
string inside `casePluginBOrC.condition`). -/
inductive Err where
  | invalidParam
  | notRegistered
  | typeError
  deriving DecidableEq, Repr

/-- The message attached to each thrown `Error` in the source. -/
def Err.message : Err → String
  | .invalidParam => "param type is not valid"
  | .notRegistered => "types not exist in plugin map"
  | .typeError => "types.filter is not a function"

/-- The `CasePlugin` interface: a condition over the dispatch input
(`none` models a thrown `TypeError`), an action (reified as the message
the action passes to `confirm`), and the registration key `targetTypes`. -/
structure CasePlugin where
  condition : Types → Option Bool
  action : String
  targetTypes : Types

/-- What one `run` call did: invoked a plugin's action with the given
params, silently did nothing, or threw an error. -/
inductive RunResult where
  | ran (plugin : CasePlugin) (params : Params)
  | noop
  | threw (e : Err)

/-- The `pluginMap`: a JS `Map` modelled as an association list in
insertion order. -/
abbrev Registry := List (Types × CasePlugin)

/-- JS `Map.prototype.get`: the value under the first (and only) entry whose
key equals `k`. -/
def mapGet : Registry → Types → Option CasePlugin
  | [], _ => none
  | e :: rest, k => if e.1 = k then some e.2 else mapGet rest k

/-- JS `Map.prototype.set`: overwrite the entry for `k` in place if present,
else append a new entry. -/
def mapSet : Registry → Types → CasePlugin → Registry
  | [], k, v => [(k, v)]
  | e :: rest, k, v => if e.1 = k then (k, v) :: rest else e :: mapSet rest k v

/-- JS `Map.prototype.delete`: remove the entry for `k` if present. -/
def mapDelete : Registry → Types → Registry
  | [], _ => []
  | e :: rest, k => if e.1 = k then rest else e :: mapDelete rest k

/-- Method `PluginController.use`: `this.pluginMap.set(plugin.targetTypes, plugin)`. -/
def use (m : Registry) (plugin : CasePlugin) : Registry :=
  mapSet m plugin.targetTypes plugin

/-- Method `PluginController.installPlugins`: `plugins.forEach((p) => this.use(p))`. -/
def installPlugins (m : Registry) (plugins : List CasePlugin) : Registry :=
  plugins.foldl use m

/-- Method `PluginController.run`: look the input up in `pluginMap`; if found,
evaluate the plugin's condition and invoke its action when it holds; if
not found, throw `"types not exist in plugin map"`. The registry is
returned alongside the result (the method body never writes to
`pluginMap`). -/
def run (m : Registry) (types : Types) (params : Params) : Registry × RunResult :=
  match mapGet m types with
  | some plugin =>
    match plugin.condition types with
    | some true => (m, .ran plugin params)
    | some false => (m, .noop)
    | none => (m, .threw .typeError)
  | none => (m, .threw .notRegistered)

/-- Method `PluginController.unuse`: `this.pluginMap.delete(types)`. -/
def unuse (m : Registry) (types : Types) : Registry :=
  mapDelete m types

/-- Method `PluginController.clearPlugins`: `this.pluginMap.clear()`. -/
def clearPlugins (_ : Registry) : Registry := []

/-- Plugin `casePluginA`: condition `casePluginA.targetTypes === type` — true
exactly when the input is the string `"A"` (a JS `===` between the string
`"A"` and an array object is `false`). -/
def casePluginA : CasePlugin where
  condition := fun input => some (decide (input = .single "A"))
  action := "I am A case"
  targetTypes := .single "A"

/-- The array object `["B", "C"]` created once at module load as
`casePluginBOrC.targetTypes`; id 0 is its reference identity. -/
def bcKey : Types := .arr 0 ["B", "C"]

/-- Plugin `casePluginBOrC`: condition
`(types) => !!types.filter((v) => targetTypes.includes(v)).length` — on an
array input, true iff some element is `"B"` or `"C"`; on a string input,
`.filter` does not exist and a `TypeError` is thrown (`none`). -/
def casePluginBOrC : CasePlugin where
  condition := fun input =>
    match input with
    | .arr _ es => some (decide ((es.filter (fun v => v ∈ ["B", "C"])).length ≠ 0))
    | .single _ => none
  action := "I am B Or C case"
  targetTypes := bcKey

/-- Plugin `casePluginN`: condition `casePluginN.targetTypes === type` — true
exactly when the input is the string `"N"`. -/
def casePluginN : CasePlugin where
  condition := fun input => some (decide (input = .single "N"))
  action := "I am N case"
  targetTypes := .single "N"

/-- The registry state produced by the `Demo` function's
`installPlugins([casePluginA, casePluginBOrC, casePluginN])` on the fresh
controller. -/
def demoRegistry : Registry :=
  installPlugins [] [casePluginA, casePluginBOrC, casePluginN]

/-- Function `handleType` (the excluded if-else example): throws
`"param type is not valid"` on the empty sentinel, otherwise confirms the
case message (or falls through returning nothing). -/
def handleType (type : String) : Except Err (Option String) :=
  if type = "" then .error .invalidParam
  else if type = "A" then .ok (some "I am A case")
  else if type = "B" then .ok (some "I am B case")
  else if type = "N" then .ok (some "I am N case")
  else .ok none

/-! ## Helper lemmas about the map operations -/

/-- Setting a key makes it retrievable with the set value. -/
theorem mapGet_mapSet_self (m : Registry) (k : Types) (v : CasePlugin) :
    mapGet (mapSet m k v) k = some v := by
  induction m with
  | nil => simp [mapSet, mapGet]
  | cons e rest ih =>
    by_cases h : e.1 = k
    · simp [mapSet, mapGet, h]
    · simp [mapSet, mapGet, h, ih]

/-- Setting a key leaves lookups of other keys unchanged. -/
theorem mapGet_mapSet_ne (m : Registry) (k : Types) (v : CasePlugin)
    (k' : Types) (hne : k' ≠ k) :
    mapGet (mapSet m k v) k' = mapGet m k' := by
  induction m with
  | nil => simp [mapSet, mapGet, Ne.symm hne]
  | cons e rest ih =>
    by_cases h : e.1 = k
    · simp [mapSet, mapGet, h, Ne.symm hne]
    · simp only [mapSet, if_neg h, mapGet]
      by_cases h' : e.1 = k'
      · simp [h']
      · simp [h', ih]

/-- Registering a plugin makes it retrievable under its `targetTypes`. -/
theorem mapGet_use_self (m : Registry) (p : CasePlugin) :
    mapGet (use m p) p.targetTypes = some p :=
  mapGet_mapSet_self m p.targetTypes p

/-- Registering a plugin leaves lookups of other keys unchanged. -/
theorem mapGet_use_ne (m : Registry) (p : CasePlugin) (k : Types)
    (hne : k ≠ p.targetTypes) :
    mapGet (use m p) k = mapGet m k :=
  mapGet_mapSet_ne m p.targetTypes p k hne

/-- Installing plugins none of which targets `k` leaves the lookup of `k`
unchanged. -/
theorem mapGet_installPlugins_of_not_target (m : Registry)
    (ps : List CasePlugin) (k : Types)
    (h : ∀ p ∈ ps, p.targetTypes ≠ k) :
    mapGet (installPlugins m ps) k = mapGet m k := by
  induction ps generalizing m with
  | nil => rfl
  | cons p rest ih =>
    have hstep : mapGet (use m p) k = mapGet m k :=
      mapGet_use_ne m p k (fun he => (h p (by simp)) he.symm)
    calc mapGet (installPlugins (use m p) rest) k
        = mapGet (use m p) k := ih (use m p) (fun q hq => h q (by simp [hq]))
      _ = mapGet m k := hstep

/-- Install distributes over list append. -/
theorem installPlugins_append (m : Registry) (ps1 ps2 : List CasePlugin) :
    installPlugins m (ps1 ++ ps2) = installPlugins (installPlugins m ps1) ps2 :=
  List.foldl_append ..

/-- A key absent from the entry list looks up to `none`. -/
theorem mapGet_eq_none_of_not_mem (m : Registry) (k : Types)
    (h : ∀ e ∈ m, e.1 ≠ k) : mapGet m k = none := by
  induction m with
  | nil => rfl
  | cons e rest ih =>
    simp only [mapGet, if_neg (h e (by simp))]
    exact ih (fun q hq => h q (by simp [hq]))

/-- In a duplicate-free registry (every JS `Map` is one), deleting a key
makes its lookup fail. -/
theorem mapGet_mapDelete_self (m : Registry) (k : Types)
    (hnd : (m.map Prod.fst).Nodup) :
    mapGet (mapDelete m k) k = none := by
  induction m with
  | nil => rfl
  | cons e rest ih =>
    simp only [List.map_cons, List.nodup_cons] at hnd
    by_cases h : e.1 = k
    · subst h
      simp only [mapDelete, if_pos rfl]
      exact mapGet_eq_none_of_not_mem rest e.1
        (fun q hq hqe => hnd.1 (hqe ▸ List.mem_map_of_mem Prod.fst hq))
    · simp only [mapDelete, if_neg h, mapGet, if_neg h]
      exact ih hnd.2

/-- Deleting a key leaves lookups of other keys unchanged. -/
theorem mapGet_mapDelete_ne (m : Registry) (k k' : Types) (hne : k' ≠ k) :
    mapGet (mapDelete m k) k' = mapGet m k' := by
  induction m with
  | nil => rfl
  | cons e rest ih =>
    by_cases h : e.1 = k
    · subst h
      simp [mapDelete, mapGet, Ne.symm hne]
    · simp only [mapDelete, if_neg h, mapGet]
      by_cases h' : e.1 = k'
      · simp [h']
      · simp [h', ih]

/-- Deleting an absent key is the identity. -/
theorem mapDelete_of_get_none (m : Registry) (k : Types)
    (h : mapGet m k = none) : mapDelete m k = m := by
  induction m with
  | nil => rfl
  | cons e rest ih =>
    simp only [mapGet] at h
    by_cases he : e.1 = k
    · simp [he] at h
    · simp only [if_neg he] at h
      simp [mapDelete, he, ih h]

/-! ## Claim theorems -/

/-- C1: if a handler `H` is registered under key `K` and `H`'s condition
holds of `K`, then `run K p` invokes exactly `H`'s action with `p` — the
result records that single invocation, so no other handler's action runs
and at most one handler is invoked per call. -/
theorem run_invokes_exactly_matching_handler (m : Registry) (K : Types)
    (H : CasePlugin) (p : Params)
    (hreg : mapGet m K = some H) (hcond : H.condition K = some true) :
    run m K p = (m, .ran H p) := by
  simp [run, hreg, hcond]

/-- Concrete instance of C1: the demo registry dispatching "A" runs
`casePluginA`'s action. -/
theorem run_invokes_exactly_matching_handler_witness :
    mapGet demoRegistry (.single "A") = some casePluginA ∧
    casePluginA.condition (.single "A") = some true ∧
    run demoRegistry (.single "A") none = (demoRegistry, .ran casePluginA none) :=
  ⟨rfl, rfl,
    run_invokes_exactly_matching_handler demoRegistry (.single "A") casePluginA none rfl rfl⟩

/-- C2 counterexample: `run` with the empty sentinel `""` on the empty
registry throws the NotRegistered error ("types not exist in plugin map"),
which is not the InvalidInput error ("param type is not valid"): the
registry lookup does happen and no InvalidInput is raised. -/
theorem run_empty_sentinel_claim_false :
    run [] (.single "") none = ([], .threw .notRegistered) ∧
    RunResult.threw .notRegistered ≠ RunResult.threw .invalidParam :=
  ⟨rfl, by intro h; injection h with h2; exact absurd h2 (by decide)⟩

/-- C2 amended: `PluginController.run` has no empty-sentinel check; it
performs an ordinary registry lookup, and when `""` is not a registered
key it throws NotRegistered. The InvalidInput error
("param type is not valid") is raised only by the excluded if-else example
`handleType`. -/
theorem run_empty_sentinel_notRegistered (m : Registry) (p : Params)
    (h : mapGet m (.single "") = none) :
    run m (.single "") p = (m, .threw .notRegistered) ∧
    handleType "" = .error .invalidParam := by
  refine ⟨?_, rfl⟩
  simp [run, h]

/-- Concrete instance of the amended C2 on the demo registry. -/
theorem run_empty_sentinel_notRegistered_witness :
    mapGet demoRegistry (.single "") = none ∧
    (run demoRegistry (.single "") none = (demoRegistry, .threw .notRegistered) ∧
     handleType "" = .error .invalidParam) :=
  ⟨rfl, run_empty_sentinel_notRegistered demoRegistry none rfl⟩

/-- C3: register `casePluginBOrC` under its tag-set key `["B","C"]` (the
array object `bcKey`); dispatching that key invokes BC's action (its
condition holds, the input intersecting `{"B","C"}`); after
`unuse(["B","C"])` the registry is empty again and dispatching the key
throws NotRegistered. -/
theorem compound_key_scenario :
    run (use [] casePluginBOrC) bcKey none
      = (use [] casePluginBOrC, .ran casePluginBOrC none) ∧
    unuse (use [] casePluginBOrC) bcKey = [] ∧
    run (unuse (use [] casePluginBOrC) bcKey) bcKey none
      = ([], .threw .notRegistered) :=
  ⟨rfl, rfl, rfl⟩

/-- C4: dispatching a key with no registered handler throws the
NotRegistered error, and no handler action is invoked. -/
theorem run_unregistered_key_throws (m : Registry) (K : Types) (p : Params)
    (h : mapGet m K = none) :
    run m K p = (m, .threw .notRegistered) := by
  simp [run, h]

/-- Concrete instance of C4: the demo registry has no key `"B"`. -/
theorem run_unregistered_key_throws_witness :
    mapGet demoRegistry (.single "B") = none ∧
    run demoRegistry (.single "B") none = (demoRegistry, .threw .notRegistered) :=
  ⟨rfl, run_unregistered_key_throws demoRegistry (.single "B") none rfl⟩

/-- C5: `use` overwrites per key — after registering `H1` then `H2` with
the same `targetTypes`, lookup on that key yields `H2` only; and
`installPlugins` is the in-order fold of `use`, so the last plugin of the
sequence targeting a key wins. -/
theorem register_overwrite_semantics (m : Registry) (H1 H2 : CasePlugin)
    (hkey : H1.targetTypes = H2.targetTypes) :
    mapGet (use (use m H1) H2) H1.targetTypes = some H2 ∧
    (∀ ps : List CasePlugin, installPlugins m ps = ps.foldl use m) ∧
    (∀ (ps1 : List CasePlugin) (H : CasePlugin) (ps2 : List CasePlugin),
      (∀ H' ∈ ps2, H'.targetTypes ≠ H.targetTypes) →
      mapGet (installPlugins m (ps1 ++ H :: ps2)) H.targetTypes = some H) := by
  refine ⟨?_, fun ps => rfl, ?_⟩
  · rw [hkey]
    exact mapGet_use_self (use m H1) H2
  · intro ps1 H ps2 hps2
    rw [installPlugins_append]
    have hcons : installPlugins (installPlugins m ps1) (H :: ps2)
        = installPlugins (use (installPlugins m ps1) H) ps2 := rfl
    rw [hcons,
      mapGet_installPlugins_of_not_target (use (installPlugins m ps1) H) ps2
        H.targetTypes hps2]
    exact mapGet_use_self (installPlugins m ps1) H

/-- Concrete instance of C5: double registration of `casePluginA`, the
fold form of `installPlugins`, and `casePluginBOrC` surviving the demo
install (no later plugin shares its key). -/
theorem register_overwrite_semantics_witness :
    casePluginA.targetTypes = casePluginA.targetTypes ∧
    mapGet (use (use [] casePluginA) casePluginA) casePluginA.targetTypes
      = some casePluginA ∧
    installPlugins [] [casePluginA, casePluginBOrC, casePluginN]
      = [casePluginA, casePluginBOrC, casePluginN].foldl use [] ∧
    mapGet (installPlugins [] ([casePluginA] ++ casePluginBOrC :: [casePluginN]))
      casePluginBOrC.targetTypes = some casePluginBOrC := by
  have h := register_overwrite_semantics [] casePluginA casePluginA rfl
  refine ⟨rfl, h.1, h.2.1 [casePluginA, casePluginBOrC, casePluginN], ?_⟩
  refine h.2.2 [casePluginA] casePluginBOrC [casePluginN] ?_
  intro H' hH'
  rw [List.mem_singleton] at hH'
  subst hH'
  decide

/-- C6: `unuse K` removes exactly the mapping for `K`: in a duplicate-free
registry `K` no longer looks up; every other key `K'` looks up exactly as
before; and `unuse` of an absent key leaves the registry unchanged (and it
never throws — it is a total function on registries). -/
theorem unregister_exact_and_noop (m : Registry) (K : Types) :
    ((m.map Prod.fst).Nodup → mapGet (unuse m K) K = none) ∧
    (∀ K' : Types, K' ≠ K → mapGet (unuse m K) K' = mapGet m K') ∧
    (mapGet m K = none → unuse m K = m) :=
  ⟨fun hnd => mapGet_mapDelete_self m K hnd,
   fun K' hne => mapGet_mapDelete_ne m K K' hne,
   fun h => mapDelete_of_get_none m K h⟩

/-- Concrete instance of C6: removing `"A"` from the demo registry kills
its lookup, leaves `"N"` untouched, and removing the absent key `"Z"` is
the identity. -/
theorem unregister_exact_and_noop_witness :
    mapGet (unuse demoRegistry (.single "A")) (.single "A") = none ∧
    mapGet (unuse demoRegistry (.single "A")) (.single "N")
      = mapGet demoRegistry (.single "N") ∧
    unuse demoRegistry (.single "Z") = demoRegistry :=
  ⟨(unregister_exact_and_noop demoRegistry (.single "A")).1 (by decide),
   (unregister_exact_and_noop demoRegistry (.single "A")).2.1 (.single "N") (by decide),
   (unregister_exact_and_noop demoRegistry (.single "Z")).2.2 rfl⟩

/-- C7: after `clearPlugins`, dispatching any previously-registered key
throws NotRegistered — the registry is back to its initial empty state. -/
theorem clear_then_run_throws (m : Registry) (K : Types) (H : CasePlugin)
    (p : Params) (_hprev : mapGet m K = some H) :
    clearPlugins m = ([] : Registry) ∧
    run (clearPlugins m) K p = (clearPlugins m, .threw .notRegistered) :=
  ⟨rfl, rfl⟩

/-- Concrete instance of C7 on the demo registry and its key `"A"`. -/
theorem clear_then_run_throws_witness :
    mapGet demoRegistry (.single "A") = some casePluginA ∧
    (clearPlugins demoRegistry = ([] : Registry) ∧
     run (clearPlugins demoRegistry) (.single "A") none
       = (clearPlugins demoRegistry, .threw .notRegistered)) :=
  ⟨rfl, clear_then_run_throws demoRegistry (.single "A") casePluginA none rfl⟩

/-- C8: a handler found by key whose condition evaluates to `false` on the
dispatch input makes `run` a silent no-op: no action invoked, no error
thrown. -/
theorem run_condition_false_is_noop (m : Registry) (K : Types)
    (H : CasePlugin) (p : Params)
    (hreg : mapGet m K = some H) (hcond : H.condition K = some false) :
    run m K p = (m, .noop) := by
  simp [run, hreg, hcond]

/-- Concrete instance of C8: a registry mapping the empty array object
(id 5) to `casePluginBOrC`; the plugin is found by that key but its
condition filters the empty input to an empty list, so `run` no-ops. -/
theorem run_condition_false_is_noop_witness :
    mapGet [(Types.arr 5 [], casePluginBOrC)] (.arr 5 []) = some casePluginBOrC ∧
    casePluginBOrC.condition (.arr 5 []) = some false ∧
    run [(Types.arr 5 [], casePluginBOrC)] (.arr 5 []) none
      = ([(Types.arr 5 [], casePluginBOrC)], .noop) :=
  ⟨rfl, rfl,
    run_condition_false_is_noop [(Types.arr 5 [], casePluginBOrC)] (.arr 5 [])
      casePluginBOrC none rfl rfl⟩

/-- C9: `run` never mutates the registry: whatever the outcome (action
invoked, silent no-op, or thrown error), the key-to-handler mapping after
the call is the one before it. -/
theorem run_preserves_registry (m : Registry) (K : Types) (p : Params) :
    (run m K p).1 = m := by
  cases hg : mapGet m K with
  | none => simp [run, hg]
  | some plugin =>
    cases hc : plugin.condition K with
    | none => simp [run, hg, hc]
    | some b => cases b <;> simp [run, hg, hc]

/-- C10: registry lookup is by exact key, never by membership: in every
registry in which the single tag `T` is not itself a registered key —
including registries whose compound (array) keys contain `T` as an
element — dispatching the single tag `T` throws NotRegistered. -/
theorem lookup_by_exact_key_only (m : Registry) (T : String) (p : Params)
    (h : ∀ e ∈ m, e.1 ≠ Types.single T) :
    run m (.single T) p = (m, .threw .notRegistered) := by
  simp [run, mapGet_eq_none_of_not_mem m (.single T) h]

/-- Concrete instance of C10, the claim's "e.g.": the demo registry has
exactly the keys `"A"`, the array object `["B","C"]` and `"N"`, so the
single tag `"B"` is not a registered key although it is an element of the
registered compound key `bcKey`, and `run("B")` throws NotRegistered. -/
theorem lookup_by_exact_key_only_witness :
    (∀ e ∈ demoRegistry, e.1 ≠ Types.single "B") ∧
    mapGet demoRegistry bcKey = some casePluginBOrC ∧
    bcKey = .arr 0 ["B", "C"] ∧ "B" ∈ ["B", "C"] ∧
    run demoRegistry (.single "B") none = (demoRegistry, .threw .notRegistered) :=
  ⟨by decide, rfl, rfl, by decide,
    lookup_by_exact_key_only demoRegistry "B" none (by decide)⟩
